import Mathlib

/-!
Shallow embedding of `src/Job_tracker_sheet.py` (job-tracking-sheet repository).

The program defines two builder functions, `create_excel_job_tracker` (local
.xlsx file via openpyxl) and `create_google_sheets_job_tracker` (remote
spreadsheet via the Sheets API), both assembling the same fixed tracker
schema: 12 column headers, one data-validation rule on the status column,
seven status-conditional row-highlight rules, six dashboard COUNTIF metrics
and two chart descriptors.  Every definition below transcribes a concrete
constant or a control-flow shape of that file; line numbers refer to
`src/Job_tracker_sheet.py`.
-/

namespace JobTracker

/-- Column headers of the Excel variant (lines 18–22). -/
def excelHeaders : List String :=
  ["#", "Company Name", "Job Title", "Job Location", "Date Applied",
   "Job Posting Link", "Resume Link", "Cover Letter Link",
   "Application Status", "Follow-Up Date", "Response Received?", "Notes"]

/-- Column headers of the Google Sheets variant (lines 203–207). -/
def gsHeaders : List String :=
  ["#", "Company Name", "Job Title", "Job Location", "Date Applied",
   "Job Posting Link", "Resume Link", "Cover Letter Link",
   "Application Status", "Follow-Up Date", "Response Received?", "Notes"]

/-- The 7-value status domain: the permitted values for the
"Application Status" column, as listed verbatim in the Google validation
rule (lines 241–242) and, comma-joined, in the Excel validation formula
(line 80). -/
def statusDomain : List String :=
  ["Applied", "Interview Scheduled", "Offer", "Rejected",
   "Followed Up", "No Response", "On Hold"]

/-- Excel status→fill-color table, hex RGB strings (lines 86–94). -/
def excelStatusColors : List (String × String) :=
  [("Applied", "ADD8E6"),
   ("Interview Scheduled", "90EE90"),
   ("Offer", "FFFF00"),
   ("Rejected", "FF9999"),
   ("Followed Up", "FFA500"),
   ("No Response", "D3D3D3"),
   ("On Hold", "E6E6FA")]

/-- A Sheets API color: fractional red/green/blue channels, 0.0–1.0.
Every channel literal in the source is an exact multiple of 0.001, so each
channel is stored exactly as an integer count of thousandths (the source
literal 0.678 is stored as 678, 1.0 as 1000, 0.6 as 600). -/
structure GColor where
  red : Nat
  green : Nat
  blue : Nat
deriving DecidableEq, Repr

/-- Google Sheets status→background-color table (lines 256–264),
channel values transcribed exactly, in thousandths, from the decimal
literals of the source. -/
def gsStatusColors : List (String × GColor) :=
  [("Applied", ⟨678, 847, 902⟩),
   ("Interview Scheduled", ⟨565, 933, 565⟩),
   ("Offer", ⟨1000, 1000, 0⟩),
   ("Rejected", ⟨1000, 600, 600⟩),
   ("Followed Up", ⟨1000, 647, 0⟩),
   ("No Response", ⟨827, 827, 827⟩),
   ("On Hold", ⟨902, 902, 980⟩)]

/-- Value of one hexadecimal digit character. -/
def hexDigitVal (c : Char) : Nat :=
  if c ≥ '0' ∧ c ≤ '9' then c.toNat - Char.toNat '0'
  else if c ≥ 'A' ∧ c ≤ 'F' then c.toNat - Char.toNat 'A' + 10
  else if c ≥ 'a' ∧ c ≤ 'f' then c.toNat - Char.toNat 'a' + 10
  else 0

/-- Value of a two-hex-digit byte. -/
def hexPairVal (a b : Char) : Nat := 16 * hexDigitVal a + hexDigitVal b

/-- Decode a six-digit hex color string (as used by openpyxl
`PatternFill`) into its red/green/blue byte triple. -/
def hexToRGB (s : String) : Nat × Nat × Nat :=
  match s.data with
  | [r1, r2, g1, g2, b1, b2] =>
      (hexPairVal r1 r2, hexPairVal g1 g2, hexPairVal b1 b2)
  | _ => (0, 0, 0)

/-- A fractional channel of `m` thousandths denotes the hex byte `h` at
three-decimal precision: `|m / 1000 - h / 255| ≤ 1 / 2000`, cleared of
denominators over the common denominator 255000. -/
def channelApprox (h m : Nat) : Prop :=
  2 * ((255 : Int) * m - 1000 * h).natAbs ≤ 255

instance (h m : Nat) : Decidable (channelApprox h m) := by
  unfold channelApprox; infer_instance

/-- A hex RGB byte triple and a fractional color denote the same
normalized RGB triple at three-decimal precision. -/
def rgbApprox (rgb : Nat × Nat × Nat) (c : GColor) : Prop :=
  channelApprox rgb.1 c.red ∧ channelApprox rgb.2.1 c.green ∧
    channelApprox rgb.2.2 c.blue

instance (rgb : Nat × Nat × Nat) (c : GColor) : Decidable (rgbApprox rgb c) := by
  unfold rgbApprox; infer_instance

/-- Split a character list at commas into the list of comma-free words. -/
def splitCommaAux : List Char → List Char → List String
  | [], acc => [String.mk acc.reverse]
  | c :: rest, acc =>
      if c = ',' then String.mk acc.reverse :: splitCommaAux rest []
      else splitCommaAux rest (c :: acc)

/-- The value list denoted by an openpyxl list-validation `formula1`
string: strip the surrounding double quotes, then split at commas. -/
def parseListFormula (s : String) : List String :=
  splitCommaAux ((s.data.drop 1).dropLast) []

/-- The Excel data-validation rule (lines 80–83): openpyxl
`DataValidation(type="list", formula1=..., allow_blank=True)`, added once
to the worksheet with the range `I2:I1048576`, recorded structurally as
(column 9, first row 2, last row 1048576). -/
structure ExcelDV where
  kind : String
  formula1 : String
  allowBlank : Bool
  ranges : List (Nat × Nat × Nat)
deriving DecidableEq, Repr

/-- The one Excel validation rule of the source (lines 80–83). -/
def excelDV : ExcelDV :=
  { kind := "list",
    formula1 :=
      "\"Applied,Interview Scheduled,Offer,Rejected,Followed Up,No Response,On Hold\"",
    allowBlank := true,
    ranges := [(9, 2, 1048576)] }

/-- All data-validation rules added by the Excel variant: exactly the one
`dv` object built at line 80 and added at lines 82–83. -/
def excelValidationRules : List ExcelDV := [excelDV]

/-- The Google Sheets data-validation rule (lines 238–253): condition
type ONE_OF_LIST with the seven status values, strict, with custom UI,
applied once to the range from `rowcol_to_a1(2, 9)` to
`rowcol_to_a1(1000, 9)`, i.e. column 9, rows 2 through 1000. -/
structure GSDV where
  condType : String
  values : List String
  strict : Bool
  showCustomUi : Bool
  col : Nat
  firstRow : Nat
  lastRow : Nat
deriving DecidableEq, Repr

/-- The one Google Sheets validation rule of the source (lines 238–253). -/
def gsDV : GSDV :=
  { condType := "ONE_OF_LIST",
    values := ["Applied", "Interview Scheduled", "Offer", "Rejected",
               "Followed Up", "No Response", "On Hold"],
    strict := true,
    showCustomUi := true,
    col := 9,
    firstRow := 2,
    lastRow := 1000 }

/-- All data-validation rules set by the Google Sheets variant: exactly
the one rule passed to `set_data_validation` at line 253. -/
def gsValidationRules : List GSDV := [gsDV]

/-- Semantics of the openpyxl list validation: with `allow_blank` an
empty entry is permitted; otherwise the entered value must be among the
comma-separated values of `formula1`. -/
def excelValidationAllows (r : ExcelDV) (v : String) : Bool :=
  (r.allowBlank && v == "") || (parseListFormula r.formula1).contains v

/-- Semantics of a Sheets API ONE_OF_LIST validation rule: an entered
value must be one of the listed values; an empty cell is not validated
by the API, so a blank is always permitted. -/
def gsValidationAllows (r : GSDV) (v : String) : Bool :=
  v == "" || r.values.contains v

/-- An Excel conditional-formatting rule (lines 97–110): a `FormulaRule`
with formula `$I2="S"` and the solid fill for status S, attached to the
ranges `A2:A1048576` … `L2:L1048576` — recorded structurally as
(column, first row, last row) triples for columns 1–12. -/
structure ExcelCFRule where
  status : String
  formula : String
  fillColor : String
  ranges : List (Nat × Nat × Nat)
deriving DecidableEq, Repr

/-- The Excel row-highlight rules: one `FormulaRule` per entry of
`status_colors`, built by the loop at lines 97–110. -/
def excelHighlightRules : List ExcelCFRule :=
  excelStatusColors.map fun p =>
    { status := p.1,
      formula := "$I2=\"" ++ p.1 ++ "\"",
      fillColor := p.2,
      ranges := (List.range 12).map fun i => (i + 1, 2, 1048576) }

/-- A Google Sheets conditional-formatting rule (lines 267–289): a
boolean rule with CUSTOM_FORMULA `=$I2="S"` and the background color for
status S, on the range startRowIndex 1 (0-based, i.e. spreadsheet row 2,
unbounded below), columns 0 through 12 (A–L). -/
structure GSCFRule where
  status : String
  formula : String
  color : GColor
  startRowIndex : Nat
  startColumnIndex : Nat
  endColumnIndex : Nat
deriving DecidableEq, Repr

/-- The Google Sheets row-highlight rules: one `addConditionalFormatRule`
request per entry of `status_colors`, built by the loop at lines 267–289. -/
def gsHighlightRules : List GSCFRule :=
  gsStatusColors.map fun p =>
    { status := p.1,
      formula := "=$I2=\"" ++ p.1 ++ "\"",
      color := p.2,
      startRowIndex := 1,
      startColumnIndex := 0,
      endColumnIndex := 12 }

/-- Semantics of the row-anchored conditional formula `$I2="S"`: a data
row matches exactly when its status cell holds S. -/
def cfMatches (ruleStatus rowStatus : String) : Bool := rowStatus == ruleStatus

/-- A dashboard metric formula `COUNTIF(sheet!col,criterion)`, recorded
structurally: the sheet name, the column range (the whole-column range
`I:I`, which includes the header row), and the match criterion. -/
structure CountifFormula where
  sheet : String
  colRange : String
  criterion : String
deriving DecidableEq, Repr

/-- The Excel dashboard metric cards (lines 125–132): each is a label and
a COUNTIF formula over the whole status column `I:I` of the
"Job Applications" sheet. -/
def excelMetrics : List (String × CountifFormula) :=
  [("Total Applied", ⟨"Job Applications", "I:I", "*"⟩),
   ("Interviews", ⟨"Job Applications", "I:I", "Interview Scheduled"⟩),
   ("Offers", ⟨"Job Applications", "I:I", "Offer"⟩),
   ("Rejections", ⟨"Job Applications", "I:I", "Rejected"⟩),
   ("Follow-ups Needed", ⟨"Job Applications", "I:I", "Followed Up"⟩),
   ("No Response", ⟨"Job Applications", "I:I", "No Response"⟩)]

/-- The Google Sheets dashboard metric cards (lines 340–347): anchor
cell, label, and the same COUNTIF formulas over the whole status column
`I:I`. -/
def gsMetrics : List (String × String × CountifFormula) :=
  [("A3", "Total Applied", ⟨"Job Applications", "I:I", "*"⟩),
   ("G3", "Interviews", ⟨"Job Applications", "I:I", "Interview Scheduled"⟩),
   ("A8", "Offers", ⟨"Job Applications", "I:I", "Offer"⟩),
   ("G8", "Rejections", ⟨"Job Applications", "I:I", "Rejected"⟩),
   ("A13", "Follow-ups Needed", ⟨"Job Applications", "I:I", "Followed Up"⟩),
   ("G13", "No Response", ⟨"Job Applications", "I:I", "No Response"⟩)]

/-- COUNTIF matching semantics for the criteria occurring in this file:
the wildcard `*` matches every non-empty text cell (in particular the
header text cell), and a plain string criterion matches a cell holding
exactly that text.  Cells are modelled as strings, the empty string
standing for a blank cell. -/
def countifMatches (criterion cell : String) : Bool :=
  if criterion == "*" then !(cell == "") else cell == criterion

/-- Evaluate a COUNTIF formula on the list of cells of its column range. -/
def evalCountif (f : CountifFormula) (cells : List String) : Nat :=
  (cells.filter (countifMatches f.criterion)).length

/-- The cells of the whole-column range `I:I` of the tracker sheet for a
given list of data rows: the header cell I1 (the 9th header label,
"Application Status") followed by the data rows' status values. -/
def trackerColumnI (dataRows : List String) : List String :=
  excelHeaders.getD 8 "" :: dataRows

/-- Evaluate one metric's COUNTIF on a tracker whose data-row statuses
are `dataRows`. -/
def evalMetric (f : CountifFormula) (dataRows : List String) : Nat :=
  evalCountif f (trackerColumnI dataRows)

/-- Excel header-row formatting (lines 55–58): the loop
`for col_num, header in enumerate(headers, 1)` bolds the cells
(row 1, column 1) through (row 1, column 12). -/
def excelHeaderBoldCells : List (Nat × Nat) :=
  (List.range excelHeaders.length).map fun i => (1, i + 1)

/-- Excel freeze anchor (line 113): `worksheet.freeze_panes = 'A2'`. -/
def excelFreezePanes : String := "A2"

/-- Row number of an A1-style freeze anchor (its digit suffix). -/
def freezeAnchorRow (s : String) : Nat :=
  s.data.foldl (fun n c => if c.isDigit then n * 10 + (c.toNat - 48) else n) 0

/-- Number of rows frozen by the Excel freeze anchor: everything above
the anchor row. -/
def excelFrozenRows : Nat := freezeAnchorRow excelFreezePanes - 1

/-- Google Sheets header bold-format range (lines 213–216):
`worksheet.format('A1:L1', {textFormat bold})`. -/
def gsHeaderBoldRange : String := "A1:L1"

/-- Google Sheets frozen row count (lines 292–303): the
`updateSheetProperties` request sets `frozenRowCount` to 1. -/
def gsFrozenRowCount : Nat := 1

/-- One sample data row (the dictionaries at lines 25–40): row number,
company name, job title, applied date, and application status. -/
structure SampleRow where
  num : Nat
  companyName : String
  jobTitle : String
  dateApplied : String
  applicationStatus : String
deriving DecidableEq, Repr

/-- The Excel sample seed rows (lines 25–40).  The two date strings are
ambient inputs: the source fills them with
`datetime.today().strftime('%Y-%m-%d')` and the same for three days
earlier, so the rows depend on the current date. -/
def excelSampleData (today threeDaysAgo : String) : List SampleRow :=
  [{ num := 1, companyName := "Tech Corp", jobTitle := "Software Engineer",
     dateApplied := today, applicationStatus := "Applied" },
   { num := 2, companyName := "Data Inc", jobTitle := "Data Analyst",
     dateApplied := threeDaysAgo, applicationStatus := "Interview Scheduled" }]

/-- An Excel chart descriptor: title, data reference (column, first row,
last row), category reference, and anchor cell. -/
structure ExcelChart where
  title : String
  dataMinCol : Nat
  dataMinRow : Nat
  dataMaxRow : Nat
  catMinCol : Nat
  catMinRow : Nat
  catMaxRow : Nat
  anchor : String
deriving DecidableEq, Repr

/-- The pie chart over the status column (lines 153–162). -/
def excelPieChart : ExcelChart :=
  { title := "Application Status Distribution",
    dataMinCol := 9, dataMinRow := 1, dataMaxRow := 100,
    catMinCol := 9, catMinRow := 2, catMaxRow := 100,
    anchor := "A15" }

/-- The bar chart of daily applications (lines 164–174). -/
def excelBarChart : ExcelChart :=
  { title := "Daily Applications",
    dataMinCol := 1, dataMinRow := 1, dataMaxRow := 100,
    catMinCol := 5, catMinRow := 2, catMaxRow := 100,
    anchor := "I15" }

/-- The full instruction set assembled by the Excel builder: header
layout, validation rule, highlight rules, dashboard metrics, freeze
directive and chart descriptors. -/
structure ExcelInstructionSet where
  headers : List String
  boldCells : List (Nat × Nat)
  validation : List ExcelDV
  highlightRules : List ExcelCFRule
  metrics : List (String × CountifFormula)
  freezePanes : String
  charts : List ExcelChart
deriving DecidableEq, Repr

/-- Everything `create_excel_job_tracker` writes into the workbook, as a
function of the two ambient date strings baked into the sample rows: the
instruction set together with the sample seed rows. -/
def excelBuild (today threeDaysAgo : String) :
    ExcelInstructionSet × List SampleRow :=
  ({ headers := excelHeaders,
     boldCells := excelHeaderBoldCells,
     validation := excelValidationRules,
     highlightRules := excelHighlightRules,
     metrics := excelMetrics,
     freezePanes := excelFreezePanes,
     charts := [excelPieChart, excelBarChart] },
   excelSampleData today threeDaysAgo)

/-- One step of the Google Sheets builder: either constructing part of
the instruction set in memory (`build`) or a remote API call applying
instructions to the sink (`handoff`). -/
inductive GSStep where
  | build : String → GSStep
  | handoff : String → GSStep
deriving DecidableEq, Repr

/-- Whether a step constructs instructions in memory. -/
def GSStep.isBuild : GSStep → Bool
  | .build _ => true
  | .handoff _ => false

/-- Whether a step is a remote API call. -/
def GSStep.isHandoff : GSStep → Bool
  | .handoff _ => true
  | .build _ => false

/-- The program-order trace of the try body of
`create_google_sheets_job_tracker` (lines 187–495), after
authentication: the source interleaves construction of the instruction
set with individual remote calls, ending in one `batch_update` that
applies the accumulated `requests` list.  Line numbers in order:
196, 200, 203–207, 210, 213–215, 216, 219–232, 235, 238–251, 253,
256–264, 267–289, 292–303, 306, 309–337, 340–391, 394–492, 495. -/
def gsSteps : List GSStep :=
  [.handoff "client.create",
   .handoff "worksheet.update_title",
   .build "headers",
   .handoff "worksheet.append_row headers",
   .build "header_format",
   .handoff "worksheet.format A1:L1",
   .build "column_widths",
   .handoff "worksheet.resize_columns",
   .build "validation_rule",
   .handoff "worksheet.set_data_validation",
   .build "status_colors",
   .build "highlight_requests",
   .build "freeze_request",
   .handoff "spreadsheet.add_worksheet dashboard",
   .build "dashboard_header_request",
   .build "metric_requests",
   .build "chart_requests",
   .handoff "spreadsheet.batch_update requests"]

/-- Whether a trace builds its whole instruction set before handing any
instruction off: after the leading build steps, only handoffs remain. -/
def allBuiltBeforeAnyHandoff (steps : List GSStep) : Bool :=
  (steps.dropWhile GSStep.isBuild).all GSStep.isHandoff

/-- Observable outcome of one invocation of the Google Sheets builder:
what it printed, which remote calls it performed, and its return value
(the document URL, or None). -/
structure GSOutcome where
  printed : List String
  remoteCalls : List GSStep
  result : Option String
deriving DecidableEq, Repr

/-- The message printed by the credentials guard (line 184). -/
def credsRequiredMsg : String :=
  "Google Sheets creation requires a credentials file."

/-- The success message of the Google Sheets builder (line 497). -/
def gsSuccessMsg (url : String) : String :=
  "Google Sheets job tracker with dashboard created successfully: " ++ url

/-- The message printed by the except clause (line 501). -/
def gsErrorMsg (e : String) : String :=
  "Error creating Google Sheets job tracker: " ++ e

/-- The success message of the Excel builder (line 178). -/
def excelSuccessMsg (outputFile : String) : String :=
  "Excel job tracker with dashboard created successfully: " ++ outputFile

/-- The credentials guard of line 183,
`not creds_file or not os.path.exists(creds_file)`: true when no path
was supplied (None, or the falsy empty string) or the path does not
exist. -/
def gsCredsGuard (credsFile : Option String) (pathExists : String → Bool) : Bool :=
  match credsFile with
  | none => true
  | some p => p == "" || ! pathExists p

/-- Outcome of the try body (lines 187–498) seen at its boundary: either
it returns a URL after performing its remote calls, or it raises an
exception after performing some prefix of them. -/
inductive GSTryResult where
  | ok : List GSStep → String → GSTryResult
  | raised : List GSStep → String → GSTryResult
deriving DecidableEq, Repr

/-- Shallow embedding of `create_google_sheets_job_tracker`
(lines 180–502): the credentials guard returns early — nothing printed
but the guard message, no remote call, None returned; otherwise the try
body runs, and the outermost except clause (lines 500–502) turns any
raised exception into a printed message and a None result instead of a
propagated exception. -/
def gsRun (credsFile : Option String) (pathExists : String → Bool)
    (tryBody : GSTryResult) : GSOutcome :=
  if gsCredsGuard credsFile pathExists then
    { printed := [credsRequiredMsg], remoteCalls := [], result := none }
  else
    match tryBody with
    | .ok calls url =>
        { printed := [gsSuccessMsg url], remoteCalls := calls, result := some url }
    | .raised calls e =>
        { printed := [gsErrorMsg e], remoteCalls := calls, result := none }

/-- Shallow embedding of the materialization tail of
`create_excel_job_tracker` (lines 176–178): `workbook.save` has no
enclosing try, so a raised exception propagates to the caller and
terminates the run; on success the function prints its success message. -/
def excelRun (outputFile : String) (saveResult : Except String Unit) :
    Except String (List String) :=
  match saveResult with
  | .ok _ => .ok [excelSuccessMsg outputFile]
  | .error e => .error e

end JobTracker

namespace JobTracker

/-- Claim C1: the local-file and cloud variants reproduce the identical
canonical schema and presentation rules: the same 12 column labels in the
same order, the same 7-value status domain as color-table keys, and for
every status the Excel hex fill color denotes the same normalized RGB
triple (channel = hex byte / 255, to three decimals) as the Google
fractional color. -/
theorem c1_schema_and_colors_agree :
    excelHeaders = gsHeaders ∧ excelHeaders.length = 12 ∧
    excelStatusColors.map Prod.fst = statusDomain ∧
    gsStatusColors.map Prod.fst = statusDomain ∧
    statusDomain.length = 7 ∧
    ∀ p ∈ excelStatusColors.zip gsStatusColors,
      p.1.1 = p.2.1 ∧ rgbApprox (hexToRGB p.1.2) p.2.2 := by
  refine ⟨rfl, rfl, rfl, rfl, rfl, ?_⟩
  decide

/-- Witness for C1: the color equivalence instantiated at the first
status, "Applied" (hex ADD8E6 versus fractional 0.678/0.847/0.902). -/
theorem c1_schema_and_colors_agree_witness :
    (("Applied", "ADD8E6"), ("Applied", (⟨678, 847, 902⟩ : GColor)))
        ∈ excelStatusColors.zip gsStatusColors ∧
    rgbApprox (hexToRGB "ADD8E6") ⟨678, 847, 902⟩ :=
  ⟨by decide,
   (c1_schema_and_colors_agree.2.2.2.2.2
      (("Applied", "ADD8E6"), ("Applied", ⟨678, 847, 902⟩))
      (by decide)).2⟩

/-- Rules whose filter statuses all lie in the status domain match no row
whose status value lies outside the domain. -/
lemma all_not_match_of_not_mem {α : Type} (rules : List α) (st : α → String)
    (hsub : ∀ r ∈ rules, st r ∈ statusDomain) {v : String}
    (hv : v ∉ statusDomain) :
    (rules.all fun r => ! cfMatches (st r) v) = true := by
  rw [List.all_eq_true]
  intro r hr
  by_cases h : v = st r
  · exact absurd (by rw [h]; exact hsub r hr) hv
  · simp [cfMatches, h]

/-- Claim C2: each variant's row-highlight builder produces exactly 7
conditional rules, one per status of the color table, each of the form
"if the status column of this row equals S, fill all 12 columns (A–L) of
the row with color(S)", never covering the header row (Excel ranges start
at row 2; the Sheets range starts at 0-based row index 1); and no rule
matches a row whose status is empty or outside the status domain. -/
theorem c2_highlight_rules :
    excelHighlightRules.length = 7 ∧ gsHighlightRules.length = 7 ∧
    excelHighlightRules.map (fun r => (r.status, r.fillColor)) = excelStatusColors ∧
    gsHighlightRules.map (fun r => (r.status, r.color)) = gsStatusColors ∧
    (∀ r ∈ excelHighlightRules,
        r.formula = "$I2=\"" ++ r.status ++ "\"" ∧
        r.ranges = (List.range 12).map (fun i => (i + 1, 2, 1048576)) ∧
        ∀ q ∈ r.ranges, 2 ≤ q.2.1) ∧
    (∀ r ∈ gsHighlightRules,
        r.formula = "=$I2=\"" ++ r.status ++ "\"" ∧
        r.startRowIndex = 1 ∧ r.startColumnIndex = 0 ∧ r.endColumnIndex = 12) ∧
    ∀ v : String, v ∉ statusDomain →
      (excelHighlightRules.all fun r => ! cfMatches r.status v) = true ∧
      (gsHighlightRules.all fun r => ! cfMatches r.status v) = true := by
  refine ⟨rfl, rfl, by decide, by decide, by decide, by decide, fun v hv => ?_⟩
  exact ⟨all_not_match_of_not_mem excelHighlightRules (fun r => r.status) (by decide) hv,
         all_not_match_of_not_mem gsHighlightRules (fun r => r.status) (by decide) hv⟩

/-- Witness for C2: at the out-of-domain status value "" (the empty
string), no Excel and no Sheets highlight rule matches. -/
theorem c2_highlight_rules_witness :
    ("" ∉ statusDomain) ∧
    (excelHighlightRules.all fun r => ! cfMatches r.status "") = true ∧
    (gsHighlightRules.all fun r => ! cfMatches r.status "") = true :=
  ⟨by decide,
   (c2_highlight_rules.2.2.2.2.2.2 "" (by decide)).1,
   (c2_highlight_rules.2.2.2.2.2.2 "" (by decide)).2⟩

/-- Claim C4: each variant produces exactly one data-validation rule; it
targets only the status column (column 9, whose header label is
"Application Status"), applies from row 2 through a large sentinel
(1048576 for Excel, 1000 for Sheets), leaving the header row (row 1)
unrestricted, and permits blank values. -/
theorem c4_validation_rule :
    excelValidationRules.length = 1 ∧ gsValidationRules.length = 1 ∧
    excelDV.ranges = [(9, 2, 1048576)] ∧
    (gsDV.col, gsDV.firstRow, gsDV.lastRow) = (9, 2, 1000) ∧
    excelHeaders[8]? = some "Application Status" ∧
    excelDV.allowBlank = true ∧
    excelValidationAllows excelDV "" = true ∧
    gsValidationAllows gsDV "" = true ∧
    1000 ≤ gsDV.lastRow ∧ 1000 ≤ (excelDV.ranges.map (fun q => q.2.2)).foldr min 1048576 := by
  decide

/-- Claim C5: the status domain has exactly 7 members with no
duplicates; both variants' validation allowed-value lists equal the
domain; and both variants' color-table key lists equal the domain. -/
theorem c5_status_domain_consistency :
    statusDomain.length = 7 ∧ statusDomain.Nodup ∧
    parseListFormula excelDV.formula1 = statusDomain ∧
    gsDV.values = statusDomain ∧
    excelStatusColors.map Prod.fst = statusDomain ∧
    gsStatusColors.map Prod.fst = statusDomain := by
  decide

/-- Claim C3 (code evaluation at the failing input): every metric is a
COUNTIF over the whole-column range `I:I`, which includes the header
cell I1 ("Application Status").  On a tracker whose data-row statuses
are exactly ["Applied", "Applied", "Offer"], the wildcard criterion `*`
of "Total Applied" also matches the header text cell, so the code
evaluates "Total Applied" to 4 — not the 3 the claim states — while
"Offers" is 1 and every other metric 0, in both variants. -/
theorem c3_metrics_eval_at_failing_input :
    (excelMetrics.map fun m => (m.1, evalMetric m.2 ["Applied", "Applied", "Offer"])) =
      [("Total Applied", 4), ("Interviews", 0), ("Offers", 1),
       ("Rejections", 0), ("Follow-ups Needed", 0), ("No Response", 0)] ∧
    (gsMetrics.map fun m => (m.2.1, evalMetric m.2.2 ["Applied", "Applied", "Offer"])) =
      [("Total Applied", 4), ("Interviews", 0), ("Offers", 1),
       ("Rejections", 0), ("Follow-ups Needed", 0), ("No Response", 0)] ∧
    evalMetric ⟨"Job Applications", "I:I", "*"⟩ ["Applied", "Applied", "Offer"] ≠ 3 := by
  decide

/-- Claim C6: the header layout has exactly 12 entries whose labels match
the fixed schema verbatim, in fixed order with no duplicate positions;
the build bolds the entire header row (cells (1,1)–(1,12) in Excel, range
A1:L1 in Sheets) and freezes the header row (freeze anchor A2, i.e. one
frozen row, in Excel; frozenRowCount 1 in Sheets). -/
theorem c6_header_layout :
    excelHeaders =
      ["#", "Company Name", "Job Title", "Job Location", "Date Applied",
       "Job Posting Link", "Resume Link", "Cover Letter Link",
       "Application Status", "Follow-Up Date", "Response Received?", "Notes"] ∧
    excelHeaders.length = 12 ∧ gsHeaders = excelHeaders ∧
    excelHeaderBoldCells = (List.range 12).map (fun i => (1, i + 1)) ∧
    (excelHeaderBoldCells.map Prod.snd).Nodup ∧
    excelFrozenRows = 1 ∧ gsFrozenRowCount = 1 ∧
    gsHeaderBoldRange = "A1:L1" := by
  decide

/-- Claim C7 (counterexample): the Excel builder's output is not
independent of the ambient current date — the sample seed rows embed
`datetime.today()`, so two invocations with identical explicit inputs on
two different dates write different tracker content. -/
theorem c7_counterexample_date_dependence :
    excelBuild "2026-10-12" "2026-10-09" ≠ excelBuild "2026-10-13" "2026-10-10" := by
  decide

/-- Claim C7 (amended): the five instruction-set components — header
layout, validation rule, highlight rules, metrics and chart descriptors
— are identical across invocations regardless of the ambient date; only
the sample seed rows vary with it. -/
theorem c7_instruction_set_deterministic :
    ∀ a b c d : String, (excelBuild a b).1 = (excelBuild c d).1 :=
  fun _ _ _ _ => rfl

/-- Claim C8 (counterexample): the Google Sheets builder does NOT produce
the complete instruction set before any instruction is handed off — the
header row, header format, column widths and validation rule are each
applied through individual remote calls before the highlight rules,
freeze directive, dashboard and charts are even built, so its trace has
build steps after handoff steps. -/
theorem c8_counterexample_incremental_handoff :
    allBuiltBeforeAnyHandoff gsSteps = false := by
  decide

/-- Claim C8 (amended): the batched portion of the instruction set —
highlight rules, freeze directive, dashboard header, metrics and charts
— is fully built before the single `batch_update` handoff, which is the
last step of the trace and occurs exactly once; no step of the trace is
ever repeated (no retries); but the earlier instructions (headers,
header format, column widths, validation rule) are handed off through
individual remote calls interleaved with construction. -/
theorem c8_amended_single_final_batch :
    gsSteps.getLast? = some (.handoff "spreadsheet.batch_update requests") ∧
    (gsSteps.filter (· == .handoff "spreadsheet.batch_update requests")).length = 1 ∧
    gsSteps.Nodup ∧
    ([GSStep.build "highlight_requests", .build "freeze_request",
      .build "dashboard_header_request", .build "metric_requests",
      .build "chart_requests"].all (gsSteps.dropLast.contains ·)) = true ∧
    ([GSStep.handoff "worksheet.append_row headers",
      .handoff "worksheet.format A1:L1",
      .handoff "worksheet.resize_columns",
      .handoff "worksheet.set_data_validation"].all (gsSteps.contains ·)) = true := by
  decide

/-- Claim C9: with no credentials supplied (None or the empty string) or
a non-existent credentials path, the Google Sheets builder prints the
"credentials required" message, performs no remote call, returns None,
and its outcome is the same no matter what the remote side would have
done — so repeated invocations under the same condition are an
idempotent no-op. -/
theorem c9_no_creds_noop :
    ∀ (credsFile : Option String) (pathExists : String → Bool)
      (t1 t2 : GSTryResult),
      gsCredsGuard credsFile pathExists = true →
      gsRun credsFile pathExists t1 =
        { printed := [credsRequiredMsg], remoteCalls := [], result := none } ∧
      gsRun credsFile pathExists t1 = gsRun credsFile pathExists t2 := by
  intro cf pe t1 t2 h
  simp [gsRun, h]

/-- Witness for C9: the concrete invocation with no credentials file. -/
theorem c9_no_creds_noop_witness :
    gsCredsGuard none (fun _ => false) = true ∧
    gsRun none (fun _ => false) (.ok [] "u") =
      { printed := [credsRequiredMsg], remoteCalls := [], result := none } :=
  ⟨rfl,
   (c9_no_creds_noop none (fun _ => false) (.ok [] "u") (.ok [] "u") rfl).1⟩

/-- Claim C10: error handling is asymmetric — a failure raised anywhere
in the remote try body is caught at the outermost call, printed, and
None is returned instead of a propagated exception, while a failure
during local-file materialization has no enclosing handler and
propagates to the caller, terminating the run. -/
theorem c10_error_asymmetry :
    (∀ (credsFile : Option String) (pathExists : String → Bool)
       (calls : List GSStep) (e : String),
       gsCredsGuard credsFile pathExists = false →
       gsRun credsFile pathExists (.raised calls e) =
         { printed := [gsErrorMsg e], remoteCalls := calls, result := none }) ∧
    ∀ (outputFile e : String), excelRun outputFile (.error e) = .error e := by
  constructor
  · intro cf pe calls e h
    simp [gsRun, h]
  · intro f e
    rfl

/-- Witness for C10: a concrete remote failure is swallowed into a
printed message and None, while the same failure in the Excel save
propagates. -/
theorem c10_error_asymmetry_witness :
    gsCredsGuard (some "creds.json") (fun _ => true) = false ∧
    gsRun (some "creds.json") (fun _ => true)
        (.raised [.handoff "client.create"] "boom") =
      { printed := [gsErrorMsg "boom"],
        remoteCalls := [.handoff "client.create"], result := none } ∧
    excelRun "Job_Tracker.xlsx" (.error "boom") = .error "boom" :=
  ⟨by decide,
   c10_error_asymmetry.1 (some "creds.json") (fun _ => true)
     [.handoff "client.create"] "boom" (by decide),
   c10_error_asymmetry.2 "Job_Tracker.xlsx" "boom"⟩

end JobTracker
